import Mathlib

/-!
# Verification of the QuickJS WASM ScriptBox bridge

Shallow embedding of `src/ScriptBox.Wasm/scriptbox_wrapper.c` (and, for the
variant-comparison claim, `src/wasm/assistant_wrapper.c`).

The QuickJS engine itself is an external, opaque collaborator: its primitives
(`JS_NewRuntime`, `JS_NewContext`, `JS_Eval`, `JS_ToCString`,
`JS_GetPropertyStr`, `JSON.stringify` via `JS_Call`, ...) are modelled by
oracle data (`Engine`, `JSVal`, `ExcInfo`): each field records the outcome the
engine produced for the corresponding primitive call.  The wrapper's own
control flow, buffer writes and resource bookkeeping are translated
line-by-line from the C source.

Buffers: the C code holds two process-wide byte buffers,
`g_last_error[1024]` and `g_result[65536]`, always written through
`vsnprintf`/`snprintf`, which stores at most `cap - 1` characters plus a null
terminator.  A buffer is modelled by its null-terminated string content, and a
`snprintf` into a buffer of capacity `n` by truncation to `n - 1` characters.
-/

/-- Capacity of `g_last_error` (bytes, including the null terminator). -/
def ERROR_CAP : Nat := 1024

/-- Capacity of `g_result` (bytes, including the null terminator). -/
def RESULT_CAP : Nat := 65536

/-- Truncate a string to its first `n` characters (the effect of a
`snprintf` with buffer size `n + 1`). -/
def truncN (n : Nat) (s : String) : String := ⟨s.data.take n⟩

/-- `set_error`: `vsnprintf(g_last_error, 1024, ...)` — the formatted message,
truncated to 1023 characters, replaces the buffer content. -/
def set_error (s : String) : String := truncN (ERROR_CAP - 1) s

/-- Boolean list-prefix test (structural). -/
def prefixB : List Char → List Char → Bool
  | [], _ => true
  | _ :: _, [] => false
  | a :: p, b :: l => a == b && prefixB p l

/-- Boolean contiguous-segment test: does `p` occur contiguously in `l`? -/
def containsSegB (p : List Char) : List Char → Bool
  | [] => prefixB p []
  | b :: rest => prefixB p (b :: rest) || containsSegB p rest

/-- A diagnostic record `r` has a stack section when the eight characters
`"\nStack: "` occur contiguously in it. -/
def hasStackSection (r : String) : Bool := containsSegB "\nStack: ".data r.data

/-!
## Exception Diagnostics Capturer (`capture_exception`)

Oracle data for one exception value `exc`:
* `toCStr`    — result of `JS_ToCString(ctx, exc)` (`none` = failed);
* `msgProp`   — result of `JS_ToCString(ctx, JS_GetPropertyStr(ctx, exc, "message"))`;
* `stackUndefined` — whether `JS_GetPropertyStr(ctx, exc, "stack")` is undefined;
* `stackStr`  — result of `JS_ToCString` on that stack value (consulted only
  when it is not undefined).
-/

structure ExcInfo where
  toCStr : Option String
  msgProp : Option String
  stackUndefined : Bool
  stackStr : Option String
deriving DecidableEq

/-- First phase of `capture_exception`: the message part written by
`set_error`. -/
def capture_base (e : ExcInfo) : String :=
  match e.toCStr with
  | some m => set_error ("Exception: " ++ m)
  | none =>
    match e.msgProp with
    | some m => set_error ("Exception: " ++ m)
    | none => set_error "Exception: (unable to extract message)"

/-- Second phase of `capture_exception`: with `cur = strlen(g_last_error)`,
`snprintf(g_last_error + cur, 1024 - cur, "\nStack: %s", stackStr)` appends at
most `1024 - cur - 1` characters of `"\nStack: " ++ stk`. -/
def append_stack (buf stk : String) : String :=
  buf ++ truncN (ERROR_CAP - 1 - buf.length) ("\nStack: " ++ stk)

/-- `capture_exception`: message phase, then the independent stack phase. -/
def capture_exception (e : ExcInfo) : String :=
  let base := capture_base e
  if e.stackUndefined then base
  else
    match e.stackStr with
    | some stk => append_stack base stk
    | none => base

/-!
## Result Canonicalizer (`js_value_to_string`)

A final value is modelled by its engine-visible kind together with the
outcomes of the engine stringification primitives the C code may invoke on it:
* `jsNumber t`, `jsString t`, `other t` — `t` is the `JS_ToCString` outcome;
* `jsObject sr t` — `sr` is the serialization outcome
  (`none` = the `JS_Call` of `JSON.stringify` raised an exception;
  `some none` = the call succeeded but `JS_ToCString` on its result failed;
  `some (some s)` = serialization produced the C string `s`),
  and `t` is the `JS_ToCString` outcome of the object itself, used by the
  fallback path when the `JS_Call` raised.
-/

inductive JSVal where
  | undef : JSVal
  | nul : JSVal
  | jsBool (b : Bool) : JSVal
  | jsNumber (toStr : Option String) : JSVal
  | jsString (toStr : Option String) : JSVal
  | jsObject (stringifyRes : Option (Option String)) (toStr : Option String) : JSVal
  | other (toStr : Option String) : JSVal
deriving DecidableEq

/-- Outcome of one `js_value_to_string(ctx, val, result_buf, 65536)` call:
the C return value, the content of `result_buf` when the call returns
(the function starts with `result_buf[0] = '\0'`, so the failure paths leave
it empty), and the message passed to `set_error`, if any. -/
structure ConvOut where
  ret : Int
  buf : String
  err : Option String
deriving DecidableEq

/-- `snprintf(result_buf, 65536, "%s", s)`. -/
def snprintf_res (s : String) : String := truncN (RESULT_CAP - 1) s

/-- `js_value_to_string`, branch by branch from the C source. -/
def js_value_to_string : JSVal → ConvOut
  | .undef => ⟨0, snprintf_res "undefined", none⟩
  | .nul => ⟨0, snprintf_res "null", none⟩
  | .jsBool b => ⟨0, snprintf_res (if b then "true" else "false"), none⟩
  | .jsNumber t =>
    match t with
    | none => ⟨-1, "", some "Failed to convert value to string"⟩
    | some s => ⟨0, snprintf_res s, none⟩
  | .jsString t =>
    match t with
    | none => ⟨-1, "", some "Failed to convert value to string"⟩
    | some s => ⟨0, snprintf_res s, none⟩
  | .jsObject sr t =>
    match sr with
    | none =>
      match t with
      | none => ⟨-1, "", some "Failed to convert object to string"⟩
      | some s => ⟨0, snprintf_res s, none⟩
    | some none => ⟨-1, "", some "Failed to convert JSON result to string"⟩
    | some (some js) => ⟨0, snprintf_res js, none⟩
  | .other t =>
    match t with
    | none => ⟨-1, "", some "Failed to convert value to string"⟩
    | some s => ⟨0, snprintf_res s, none⟩

/-!
## Host-call bridges (`js_bridge_call`, `js_host_call_json`)

The host import `host_call(in_ptr, in_len, out_ptr, out_cap)` is modelled by a
function from (payload bytes, declared payload length, output capacity) to
(return code, full content of the 4096-byte output buffer after the call).
The guest-visible outcome of a bridge invocation:
-/

inductive JSBridgeResult where
  | thrownType (msg : String) : JSBridgeResult
  | thrownInternal (msg : String) : JSBridgeResult
  | excRaw : JSBridgeResult
  | nullResult : JSBridgeResult
  | strResult (bytes : List Nat) : JSBridgeResult
deriving DecidableEq

/-- The guest-side argument list: each argument is `none` when
`JS_ToCStringLen` fails on it (not a string), `some bytes` otherwise. -/
abbrev HostFn := List Nat → Nat → Nat → Int × List Nat

/-- `js_bridge_call` (scriptbox_wrapper.c): arity check, payload extraction,
`host_call(payload, payload_len, response_buf, 4096)`, then the
negative / zero / positive dispatch.  Note: no capacity check on the
returned length. -/
def js_bridge_call (host : HostFn) (args : List (Option (List Nat))) : JSBridgeResult :=
  match args with
  | [] => .thrownType "bridge requires 1 argument (JSON string)"
  | arg :: _ =>
    match arg with
    | none => .thrownType "bridge argument must be a string"
    | some payload =>
      let r := host payload payload.length 4096
      if r.1 < 0 then
        .thrownInternal ("Host call failed with error code " ++ toString r.1)
      else if r.1 = 0 then
        .nullResult
      else
        .strResult (r.2.take r.1.toNat)

/-- `js_host_call_json` (assistant_wrapper.c): same host primitive, but a bare
`JS_EXCEPTION` on a non-string argument, a capacity check after the host call,
and a plain (possibly empty) string result — never null. -/
def js_host_call_json (host : HostFn) (args : List (Option (List Nat))) : JSBridgeResult :=
  match args with
  | [] => .thrownType "host_call_json: expected 1 argument"
  | arg :: _ =>
    match arg with
    | none => .excRaw
    | some payload =>
      let r := host payload payload.length 4096
      if r.1 < 0 then
        .thrownInternal ("host_call failed with code " ++ toString r.1)
      else if (4096 : Int) < r.1 then
        .thrownInternal "host_call wrote too much data"
      else
        .strResult (r.2.take r.1.toNat)

/-!
## Execution Driver (`eval_js`) and self-test

Engine oracle for one `eval_js` call: outcomes of `JS_NewRuntime`,
`JS_NewContext`, `install_host_bridge` (with the message it passes to
`set_error` on failure), `js_malloc_rt`, and of `JS_Eval` on the
null-terminated copy of the source bytes.
-/

inductive EvalOutcome where
  | exc (e : ExcInfo) : EvalOutcome
  | val (v : JSVal) : EvalOutcome
deriving DecidableEq

structure Engine where
  runtimeOk : Bool
  contextOk : Bool
  bridgeOk : Bool
  bridgeErr : String
  allocOk : Bool
  evalResult : List Nat → EvalOutcome

/-- The two process-wide buffers. -/
structure BridgeState where
  g_last_error : String
  g_result : String
deriving DecidableEq

/-- Resource bookkeeping along one `eval_js` path: how many times the runtime
and the context were created and released, and how many `js_malloc_rt` /
`js_free_rt` pairs ran. -/
structure ResourceLog where
  rtCreated : Nat
  rtFreed : Nat
  ctxCreated : Nat
  ctxFreed : Nat
  allocMade : Nat
  allocFreed : Nat
deriving DecidableEq

/-- `eval_js(code_ptr, len)`: `code = none` models a NULL `code_ptr`,
`code = some c` the `len` source bytes.  Returns the C status code, the
buffer state after the call, and the resource log of the path taken. -/
def eval_js (E : Engine) (code : Option (List Nat)) (s : BridgeState) :
    Int × BridgeState × ResourceLog :=
  match code with
  | none =>
    (24, { s with g_last_error := set_error "code_ptr is NULL" }, ⟨0, 0, 0, 0, 0, 0⟩)
  | some c =>
    if !E.runtimeOk then
      (20, { s with g_last_error := set_error "Failed to create JavaScript runtime" },
        ⟨0, 0, 0, 0, 0, 0⟩)
    else if !E.contextOk then
      (21, { s with g_last_error := set_error "Failed to create JavaScript context" },
        ⟨1, 1, 0, 0, 0, 0⟩)
    else if !E.bridgeOk then
      (23, { s with g_last_error := set_error E.bridgeErr }, ⟨1, 1, 1, 1, 0, 0⟩)
    else if !E.allocOk then
      let allocMsg := "Failed to allocate code buffer (" ++ toString (c.length + 1) ++ " bytes)"
      (25, { s with g_last_error := set_error allocMsg }, ⟨1, 1, 1, 1, 0, 0⟩)
    else
      match E.evalResult c with
      | .exc e =>
        (22, { s with g_last_error := capture_exception e }, ⟨1, 1, 1, 1, 1, 1⟩)
      | .val v =>
        let conv := js_value_to_string v
        if conv.ret ≠ 0 then
          (26, { g_last_error := (match conv.err with
                   | some m => set_error m
                   | none => s.g_last_error),
                 g_result := conv.buf }, ⟨1, 1, 1, 1, 1, 1⟩)
        else
          (0, { g_last_error := set_error "OK", g_result := conv.buf }, ⟨1, 1, 1, 1, 1, 1⟩)

/-- Engine oracle for `quickjs_selftest`: runtime and context creation
outcomes, and the outcome of `JS_Eval(ctx, "1+1", 3, "selftest", ...)`. -/
structure SelftestEngine where
  runtimeOk : Bool
  contextOk : Bool
  evalResult : EvalOutcome

/-- `quickjs_selftest`: returns the status code and the `g_last_error`
content after the call. -/
def quickjs_selftest (E : SelftestEngine) : Int × String :=
  if !E.runtimeOk then (100, set_error "Selftest: Failed to create runtime")
  else if !E.contextOk then (101, set_error "Selftest: Failed to create context")
  else
    match E.evalResult with
    | .exc e => (102, capture_exception e)
    | .val _ => (0, set_error "Selftest: OK (QuickJS is functional)")

/-- An exception whose message stringifies to 1015 copies of `'a'` and which
carries a defined, stringifiable `stack` property `"s"`.  The message part
alone already fills the 1023 usable bytes of `g_last_error`. -/
def truncExc : ExcInfo := ⟨some ⟨List.replicate 1015 'a'⟩, none, false, some "s"⟩

/-- An engine on which every primitive succeeds and evaluation raises
`truncExc`. -/
def truncEngine : Engine := ⟨true, true, true, "", true, fun _ => .exc truncExc⟩

/-!
## Helper lemmas: truncation, prefixes, contiguous segments
-/

theorem truncN_data (n : Nat) (s : String) : (truncN n s).data = s.data.take n := rfl

theorem truncN_length_le (n : Nat) (s : String) : (truncN n s).length ≤ n := by
  show (s.data.take n).length ≤ n
  rw [List.length_take]
  exact min_le_left _ _

theorem truncN_of_le {n : Nat} {s : String} (h : s.length ≤ n) : truncN n s = s := by
  cases s with
  | mk d => exact congrArg String.mk (List.take_of_length_le h)

theorem set_error_length_le (s : String) : (set_error s).length ≤ ERROR_CAP - 1 :=
  truncN_length_le _ s

theorem set_error_of_le {s : String} (h : s.length ≤ ERROR_CAP - 1) : set_error s = s :=
  truncN_of_le h

theorem prefixB_of_append (p t : List Char) : prefixB p (p ++ t) = true := by
  induction p with
  | nil => simp [prefixB]
  | cons a p ih => simp [prefixB, ih]

theorem prefixB_append_right (p : List Char) {l : List Char} (t : List Char)
    (h : prefixB p l = true) : prefixB p (l ++ t) = true := by
  induction p generalizing l with
  | nil => simp [prefixB]
  | cons a p ih =>
    cases l with
    | nil => simp [prefixB] at h
    | cons b l =>
      simp only [prefixB, Bool.and_eq_true] at h
      simp only [List.cons_append, prefixB, Bool.and_eq_true]
      exact ⟨h.1, ih h.2⟩

theorem containsSegB_of_prefixB (p l : List Char) (h : prefixB p l = true) :
    containsSegB p l = true := by
  cases l with
  | nil => simpa [containsSegB] using h
  | cons b rest => simp [containsSegB, h]

theorem containsSegB_cons (p : List Char) (b : Char) (rest : List Char)
    (h : containsSegB p rest = true) : containsSegB p (b :: rest) = true := by
  simp [containsSegB, h]

theorem containsSegB_of_parts (s p t : List Char) :
    containsSegB p (s ++ p ++ t) = true := by
  induction s with
  | nil =>
    simp only [List.nil_append]
    exact containsSegB_of_prefixB p (p ++ t) (prefixB_of_append p t)
  | cons b s ih =>
    simp only [List.cons_append]
    exact containsSegB_cons _ b _ ih

theorem containsSegB_eq_false (a : Char) (q l : List Char) (h : a ∉ l) :
    containsSegB (a :: q) l = false := by
  induction l with
  | nil => simp [containsSegB, prefixB]
  | cons b rest ih =>
    have hab : (a == b) = false := by
      simp only [beq_eq_false_iff_ne]
      intro e
      exact h (e ▸ List.mem_cons_self b rest)
    have hm : a ∉ rest := fun hr => h (List.mem_cons_of_mem _ hr)
    simp [containsSegB, prefixB, hab, ih hm]

/-!
## Helper lemmas: exception capture
-/

theorem capture_base_eq (e : ExcInfo) :
    ∃ m : String, capture_base e = set_error ("Exception: " ++ m) := by
  rcases h1 : e.toCStr with _ | m
  · rcases h2 : e.msgProp with _ | m
    · refine ⟨"(unable to extract message)", ?_⟩
      simp only [capture_base, h1, h2]
      exact congrArg set_error (by decide)
    · exact ⟨m, by simp [capture_base, h1, h2]⟩
  · exact ⟨m, by simp [capture_base, h1]⟩

theorem set_error_exception_data (m : String) :
    (set_error ("Exception: " ++ m)).data
      = "Exception: ".data ++ m.data.take (ERROR_CAP - 1 - "Exception: ".data.length) := by
  show (("Exception: " ++ m)).data.take (ERROR_CAP - 1) = _
  rw [String.data_append, List.take_append_eq_append_take,
    List.take_of_length_le (by decide : ("Exception: " : String).data.length ≤ ERROR_CAP - 1)]

theorem capture_base_prefixB (e : ExcInfo) :
    prefixB "Exception: ".data (capture_base e).data = true := by
  obtain ⟨m, hm⟩ := capture_base_eq e
  rw [hm, set_error_exception_data]
  exact prefixB_of_append _ _

theorem capture_base_length_le (e : ExcInfo) : (capture_base e).length ≤ ERROR_CAP - 1 := by
  obtain ⟨m, hm⟩ := capture_base_eq e
  rw [hm]
  exact set_error_length_le _

theorem append_stack_length_le (b stk : String) (hb : b.length ≤ ERROR_CAP - 1) :
    (append_stack b stk).length ≤ ERROR_CAP - 1 := by
  rw [append_stack, String.length_append]
  have h := truncN_length_le (ERROR_CAP - 1 - b.length) ("\nStack: " ++ stk)
  omega

theorem capture_exception_length_le (e : ExcInfo) :
    (capture_exception e).length ≤ ERROR_CAP - 1 := by
  rw [capture_exception]
  rcases e.stackUndefined with _ | _
  · rcases e.stackStr with _ | stk
    · simpa using capture_base_length_le e
    · simpa using append_stack_length_le _ stk (capture_base_length_le e)
  · simpa using capture_base_length_le e

theorem capture_exception_prefixB (e : ExcInfo) :
    prefixB "Exception: ".data (capture_exception e).data = true := by
  rw [capture_exception]
  rcases e.stackUndefined with _ | _
  · rcases e.stackStr with _ | stk
    · simpa using capture_base_prefixB e
    · show prefixB "Exception: ".data (append_stack (capture_base e) stk).data = true
      rw [append_stack, String.data_append]
      exact prefixB_append_right _ _ (capture_base_prefixB e)
  · simpa using capture_base_prefixB e

theorem append_stack_hasSection (b stk : String) (h : b.length + 8 ≤ ERROR_CAP - 1) :
    hasStackSection (append_stack b stk) = true := by
  have hdata : (append_stack b stk).data
      = b.data ++ "\nStack: ".data ++ stk.data.take (ERROR_CAP - 1 - b.length - 8) := by
    rw [append_stack, String.data_append, truncN_data, String.data_append,
      List.take_append_eq_append_take,
      List.take_of_length_le (show ("\nStack: " : String).data.length ≤ ERROR_CAP - 1 - b.length by
        have h8 : ("\nStack: " : String).data.length = 8 := by decide
        omega)]
    have h8 : ("\nStack: " : String).data.length = 8 := by decide
    rw [h8, List.append_assoc]
  rw [hasStackSection, hdata]
  exact containsSegB_of_parts _ _ _

theorem capture_exception_hasSection (e : ExcInfo) (h1 : e.stackUndefined = false)
    {stk : String} (h2 : e.stackStr = some stk)
    (h3 : (capture_base e).length + 8 ≤ ERROR_CAP - 1) :
    hasStackSection (capture_exception e) = true := by
  rw [capture_exception, h1, h2]
  simpa using append_stack_hasSection _ stk h3

theorem capture_exception_of_stack_undefined (e : ExcInfo) (h : e.stackUndefined = true) :
    capture_exception e = capture_base e := by
  rw [capture_exception, h]
  rfl

theorem capture_exception_of_stack_unconvertible (e : ExcInfo) (h : e.stackStr = none) :
    capture_exception e = capture_base e := by
  rw [capture_exception, h]
  rcases e.stackUndefined with _ | _ <;> rfl

/-!
## Helper lemmas: result canonicalizer and driver
-/

theorem js_value_to_string_fail_buf (v : JSVal) (h : (js_value_to_string v).ret ≠ 0) :
    (js_value_to_string v).buf = "" := by
  cases v with
  | undef => simp [js_value_to_string] at h
  | nul => simp [js_value_to_string] at h
  | jsBool b => simp [js_value_to_string] at h
  | jsNumber t => cases t <;> simp [js_value_to_string] at h ⊢
  | jsString t => cases t <;> simp [js_value_to_string] at h ⊢
  | jsObject sr t =>
    cases sr with
    | none => cases t <;> simp [js_value_to_string] at h ⊢
    | some o => cases o <;> simp [js_value_to_string] at h ⊢
  | other t => cases t <;> simp [js_value_to_string] at h ⊢

theorem eval_js_status_mem (E : Engine) (code : Option (List Nat)) (s : BridgeState) :
    (eval_js E code s).1 ∈ ([0, 20, 21, 22, 23, 24, 25, 26] : List Int) := by
  rcases code with _ | c
  · simp [eval_js]
  rcases hrt : E.runtimeOk with _ | _
  · simp [eval_js, hrt]
  rcases hctx : E.contextOk with _ | _
  · simp [eval_js, hrt, hctx]
  rcases hbr : E.bridgeOk with _ | _
  · simp [eval_js, hrt, hctx, hbr]
  rcases hal : E.allocOk with _ | _
  · simp [eval_js, hrt, hctx, hbr, hal]
  rcases hev : E.evalResult c with e | v
  · simp [eval_js, hrt, hctx, hbr, hal, hev]
  by_cases hr : (js_value_to_string v).ret = 0
  · simp [eval_js, hrt, hctx, hbr, hal, hev, hr]
  · simp [eval_js, hrt, hctx, hbr, hal, hev, hr]

/-!
## Claim theorems
-/

/-- C1: the Result Canonicalizer follows the dispatch table exactly:
undefined yields the literal string "undefined", null yields "null", a
boolean yields "true"/"false", numbers and strings are directly stringified
with no added quotes, objects are serialized via the engine's JSON.stringify
result, and on serialization failure (the stringify call raised) the object
falls back to direct stringification. -/
theorem C1_canonicalizer_dispatch :
    js_value_to_string .undef = ⟨0, "undefined", none⟩
    ∧ js_value_to_string .nul = ⟨0, "null", none⟩
    ∧ js_value_to_string (.jsBool true) = ⟨0, "true", none⟩
    ∧ js_value_to_string (.jsBool false) = ⟨0, "false", none⟩
    ∧ (∀ s : String, s.length ≤ RESULT_CAP - 1 →
        js_value_to_string (.jsNumber (some s)) = ⟨0, s, none⟩)
    ∧ (∀ s : String, s.length ≤ RESULT_CAP - 1 →
        js_value_to_string (.jsString (some s)) = ⟨0, s, none⟩)
    ∧ (∀ (js : String) (t : Option String), js.length ≤ RESULT_CAP - 1 →
        js_value_to_string (.jsObject (some (some js)) t) = ⟨0, js, none⟩)
    ∧ (∀ s : String, s.length ≤ RESULT_CAP - 1 →
        js_value_to_string (.jsObject none (some s)) = ⟨0, s, none⟩)
    ∧ (∀ s : String, s.length ≤ RESULT_CAP - 1 →
        js_value_to_string (.other (some s)) = ⟨0, s, none⟩) := by
  refine ⟨by decide, by decide, by decide, by decide, ?_, ?_, ?_, ?_, ?_⟩
  · intro s h
    simp [js_value_to_string, snprintf_res, truncN_of_le h]
  · intro s h
    simp [js_value_to_string, snprintf_res, truncN_of_le h]
  · intro js t h
    simp [js_value_to_string, snprintf_res, truncN_of_le h]
  · intro s h
    simp [js_value_to_string, snprintf_res, truncN_of_le h]
  · intro s h
    simp [js_value_to_string, snprintf_res, truncN_of_le h]

/-- Witness for C1: concrete values through the quantified cases — the string
"x" round-trips without quotes, the number string "42" is passed through, a
serialized object is returned as-is. -/
theorem C1_canonicalizer_dispatch_witness :
    js_value_to_string (.jsString (some "x")) = ⟨0, "x", none⟩
    ∧ js_value_to_string (.jsNumber (some "42")) = ⟨0, "42", none⟩
    ∧ js_value_to_string (.jsObject (some (some "\x7b\"a\":1\x7d")) none)
        = ⟨0, "\x7b\"a\":1\x7d", none⟩ :=
  ⟨C1_canonicalizer_dispatch.2.2.2.2.2.1 "x" (by decide),
   C1_canonicalizer_dispatch.2.2.2.2.1 "42" (by decide),
   C1_canonicalizer_dispatch.2.2.2.2.2.2.1 "\x7b\"a\":1\x7d" none (by decide)⟩

/-- C5: `eval_js` with a NULL source pointer returns status 24 at once, with
the process-wide resource log all zero (no runtime, no context, no
allocation), the diagnostic message "code_ptr is NULL" written, and the
result buffer untouched. -/
theorem C5_null_input (E : Engine) (s : BridgeState) :
    eval_js E none s
      = (24, ⟨"code_ptr is NULL", s.g_result⟩, ⟨0, 0, 0, 0, 0, 0⟩) := by
  have h : set_error "code_ptr is NULL" = "code_ptr is NULL" := by decide
  simp [eval_js, h]

/-- C10: when the engine primitives all succeed and `JS_Eval` of the empty
source yields the undefined value, `eval_js` on a non-null zero-length input
returns status 0 and the result buffer holds exactly "undefined". -/
theorem C10_empty_program (E : Engine) (s : BridgeState)
    (h1 : E.runtimeOk = true) (h2 : E.contextOk = true) (h3 : E.bridgeOk = true)
    (h4 : E.allocOk = true) (h5 : E.evalResult [] = .val .undef) :
    (eval_js E (some []) s).1 = 0
    ∧ (eval_js E (some []) s).2.1.g_result = "undefined" := by
  have hconv : js_value_to_string .undef = ⟨0, "undefined", none⟩ := by decide
  constructor <;> simp [eval_js, h1, h2, h3, h4, h5, hconv]

/-- Witness for C10: a concrete engine where everything succeeds and the empty
program evaluates to undefined. -/
theorem C10_empty_program_witness :
    (eval_js ⟨true, true, true, "", true, fun _ => .val .undef⟩ (some []) ⟨"", ""⟩).1 = 0
    ∧ (eval_js ⟨true, true, true, "", true, fun _ => .val .undef⟩
        (some []) ⟨"", ""⟩).2.1.g_result = "undefined" :=
  C10_empty_program _ _ rfl rfl rfl rfl rfl

/-- C2: on every `eval_js` call returning a nonzero status, the result buffer
`g_result` keeps its previous contents, except that a ResultConvertFailed
outcome (status 26) leaves exactly the initial clear (the empty string) and
nothing else. -/
theorem C2_result_buffer_frame (E : Engine) (code : Option (List Nat)) (s : BridgeState) :
    ((eval_js E code s).1 ≠ 0 → (eval_js E code s).1 ≠ 26 →
      (eval_js E code s).2.1.g_result = s.g_result)
    ∧ ((eval_js E code s).1 = 26 → (eval_js E code s).2.1.g_result = "") := by
  rcases code with _ | c
  · refine ⟨fun _ _ => by simp [eval_js], fun h26 => ?_⟩
    norm_num [eval_js] at h26
  rcases hrt : E.runtimeOk with _ | _
  · refine ⟨fun _ _ => by simp [eval_js, hrt], fun h26 => ?_⟩
    norm_num [eval_js, hrt] at h26
  rcases hctx : E.contextOk with _ | _
  · refine ⟨fun _ _ => by simp [eval_js, hrt, hctx], fun h26 => ?_⟩
    norm_num [eval_js, hrt, hctx] at h26
  rcases hbr : E.bridgeOk with _ | _
  · refine ⟨fun _ _ => by simp [eval_js, hrt, hctx, hbr], fun h26 => ?_⟩
    norm_num [eval_js, hrt, hctx, hbr] at h26
  rcases hal : E.allocOk with _ | _
  · refine ⟨fun _ _ => by simp [eval_js, hrt, hctx, hbr, hal], fun h26 => ?_⟩
    norm_num [eval_js, hrt, hctx, hbr, hal] at h26
  rcases hev : E.evalResult c with e | v
  · refine ⟨fun _ _ => by simp [eval_js, hrt, hctx, hbr, hal, hev], fun h26 => ?_⟩
    norm_num [eval_js, hrt, hctx, hbr, hal, hev] at h26
  by_cases hr : (js_value_to_string v).ret = 0
  · refine ⟨fun h0 _ => ?_, fun h26 => ?_⟩
    · exact absurd (by simp [eval_js, hrt, hctx, hbr, hal, hev, hr]) h0
    · norm_num [eval_js, hrt, hctx, hbr, hal, hev, hr] at h26
  · refine ⟨fun _ h26 => ?_, fun _ => ?_⟩
    · exact absurd (by simp [eval_js, hrt, hctx, hbr, hal, hev, hr]) h26
    · simp [eval_js, hrt, hctx, hbr, hal, hev, hr, js_value_to_string_fail_buf v hr]

/-- Witness for C2: a concrete conversion failure (an object whose
serialization result cannot be read back as a C string) returns status 26 with
an empty result buffer, and a concrete exception path (status 22) leaves the
previous result buffer contents intact. -/
theorem C2_result_buffer_frame_witness :
    ((eval_js ⟨true, true, true, "", true, fun _ => .val (.jsObject (some none) none)⟩
        (some []) ⟨"", "old"⟩).1 = 26 →
      (eval_js ⟨true, true, true, "", true, fun _ => .val (.jsObject (some none) none)⟩
        (some []) ⟨"", "old"⟩).2.1.g_result = "")
    ∧ ((eval_js ⟨true, true, true, "", true,
          fun _ => .exc ⟨some "boom", none, true, none⟩⟩ (some []) ⟨"", "old"⟩).1 ≠ 0 →
        (eval_js ⟨true, true, true, "", true,
          fun _ => .exc ⟨some "boom", none, true, none⟩⟩ (some []) ⟨"", "old"⟩).1 ≠ 26 →
        (eval_js ⟨true, true, true, "", true,
          fun _ => .exc ⟨some "boom", none, true, none⟩⟩
          (some []) ⟨"", "old"⟩).2.1.g_result = "old") :=
  ⟨(C2_result_buffer_frame ⟨true, true, true, "", true,
      fun _ => .val (.jsObject (some none) none)⟩ (some []) ⟨"", "old"⟩).2,
   fun h0 h26 => (C2_result_buffer_frame ⟨true, true, true, "", true,
      fun _ => .exc ⟨some "boom", none, true, none⟩⟩ (some []) ⟨"", "old"⟩).1 h0 h26⟩

/-- C7: on every `eval_js` path that reaches interpreter creation, the runtime
is created and freed exactly once; the context is freed exactly as many times
as it is created, and exactly once when its creation succeeded; every source
copy allocated with `js_malloc_rt` is released with `js_free_rt`. -/
theorem C7_resource_release (E : Engine) (c : List Nat) (s : BridgeState)
    (hrt : E.runtimeOk = true) :
    ((eval_js E (some c) s).2.2.rtCreated = 1 ∧ (eval_js E (some c) s).2.2.rtFreed = 1)
    ∧ (eval_js E (some c) s).2.2.ctxCreated = (eval_js E (some c) s).2.2.ctxFreed
    ∧ (E.contextOk = true →
        (eval_js E (some c) s).2.2.ctxCreated = 1
        ∧ (eval_js E (some c) s).2.2.ctxFreed = 1)
    ∧ (eval_js E (some c) s).2.2.allocMade = (eval_js E (some c) s).2.2.allocFreed := by
  rcases hctx : E.contextOk with _ | _
  · simp [eval_js, hrt, hctx]
  rcases hbr : E.bridgeOk with _ | _
  · simp [eval_js, hrt, hctx, hbr]
  rcases hal : E.allocOk with _ | _
  · simp [eval_js, hrt, hctx, hbr, hal]
  rcases hev : E.evalResult c with e | v
  · simp [eval_js, hrt, hctx, hbr, hal, hev]
  by_cases hr : (js_value_to_string v).ret = 0 <;>
    simp [eval_js, hrt, hctx, hbr, hal, hev, hr]

/-- Witness for C7: on a concrete fully-successful engine the runtime,
context and source copy are each created and released exactly once. -/
theorem C7_resource_release_witness :
    ((eval_js ⟨true, true, true, "", true, fun _ => .val .undef⟩
        (some []) ⟨"", ""⟩).2.2.rtCreated = 1
      ∧ (eval_js ⟨true, true, true, "", true, fun _ => .val .undef⟩
        (some []) ⟨"", ""⟩).2.2.rtFreed = 1)
    ∧ (eval_js ⟨true, true, true, "", true, fun _ => .val .undef⟩
        (some []) ⟨"", ""⟩).2.2.ctxCreated = 1
    ∧ (eval_js ⟨true, true, true, "", true, fun _ => .val .undef⟩
        (some []) ⟨"", ""⟩).2.2.ctxFreed = 1 :=
  ⟨(C7_resource_release ⟨true, true, true, "", true, fun _ => .val .undef⟩ [] ⟨"", ""⟩ rfl).1,
   ((C7_resource_release ⟨true, true, true, "", true, fun _ => .val .undef⟩
      [] ⟨"", ""⟩ rfl).2.2.1 rfl).1,
   ((C7_resource_release ⟨true, true, true, "", true, fun _ => .val .undef⟩
      [] ⟨"", ""⟩ rfl).2.2.1 rfl).2⟩

/-- C3: the guest-visible host-call capability `js_bridge_call` forwards the
payload with exactly its byte length (the outcome depends only on the host
primitive's behavior at that exact input), and dispatches on the host return
code: negative yields a thrown descriptive internal error, zero yields null,
positive yields a string of exactly the returned number of bytes taken from
the response buffer. -/
theorem C3_bridge_call_roundtrip (host : HostFn) (payload : List Nat) :
    ((host payload payload.length 4096).1 < 0 →
      js_bridge_call host [some payload]
        = .thrownInternal ("Host call failed with error code "
            ++ toString (host payload payload.length 4096).1))
    ∧ ((host payload payload.length 4096).1 = 0 →
        js_bridge_call host [some payload] = .nullResult)
    ∧ (0 < (host payload payload.length 4096).1 →
        js_bridge_call host [some payload]
          = .strResult ((host payload payload.length 4096).2.take
              (host payload payload.length 4096).1.toNat))
    ∧ (0 < (host payload payload.length 4096).1 →
        (host payload payload.length 4096).1 ≤ 4096 →
        4096 ≤ (host payload payload.length 4096).2.length →
        ((host payload payload.length 4096).2.take
            (host payload payload.length 4096).1.toNat).length
          = (host payload payload.length 4096).1.toNat)
    ∧ (∀ host2 : HostFn,
        host2 payload payload.length 4096 = host payload payload.length 4096 →
        js_bridge_call host2 [some payload] = js_bridge_call host [some payload]) := by
  refine ⟨?_, ?_, ?_, ?_, ?_⟩
  · intro h
    simp [js_bridge_call, h]
  · intro h
    simp [js_bridge_call, h]
  · intro h
    have h1 : ¬ ((host payload payload.length 4096).1 < 0) := by omega
    have h2 : ¬ ((host payload payload.length 4096).1 = 0) := by omega
    simp [js_bridge_call, h1, h2]
  · intro h1 h2 h3
    rw [List.length_take]
    omega
  · intro host2 heq
    simp only [js_bridge_call, heq]

/-- Witness for C3: a concrete host returning code 2 — the guest receives
exactly the first 2 bytes of the response buffer as a string. -/
theorem C3_bridge_call_roundtrip_witness :
    js_bridge_call (fun _ _ _ => (2, [7, 8, 9])) [some [1]] = .strResult [7, 8]
    ∧ ((List.replicate 4096 (0 : Nat)).take ((2 : Int)).toNat).length = ((2 : Int)).toNat := by
  constructor
  · have h := (C3_bridge_call_roundtrip (fun _ _ _ => (2, [7, 8, 9])) [1]).2.2.1 (by decide)
    simpa using h
  · exact (C3_bridge_call_roundtrip (fun _ _ _ => ((2 : Int), List.replicate 4096 (0 : Nat)))
      [1]).2.2.2.1 (by decide) (by decide)
      (by show (4096 : Nat) ≤ (List.replicate 4096 (0 : Nat)).length
          rw [List.length_replicate])

/-- C9: the two bridge variants are not guest-visibly equivalent.  On a
zero-length host response `js_bridge_call` returns null while
`js_host_call_json` returns an empty string; on a host return code exceeding
the 4096-byte response capacity `js_host_call_json` throws an overflow error
while `js_bridge_call` performs no such check and builds a string anyway. -/
theorem C9_bridge_variants_differ :
    (js_bridge_call (fun _ _ _ => (0, [])) [some []] = .nullResult
      ∧ js_host_call_json (fun _ _ _ => (0, [])) [some []] = .strResult []
      ∧ js_bridge_call (fun _ _ _ => (0, [])) [some []]
          ≠ js_host_call_json (fun _ _ _ => (0, [])) [some []])
    ∧ (js_bridge_call (fun _ _ _ => (4097, List.replicate 4096 0)) [some []]
          = .strResult (List.replicate 4096 0)
      ∧ js_host_call_json (fun _ _ _ => (4097, List.replicate 4096 0)) [some []]
          = .thrownInternal "host_call wrote too much data"
      ∧ js_bridge_call (fun _ _ _ => (4097, List.replicate 4096 0)) [some []]
          ≠ js_host_call_json (fun _ _ _ => (4097, List.replicate 4096 0)) [some []]) := by
  have key : ∀ buf : List Nat, buf.length = 4096 →
      js_bridge_call (fun _ _ _ => (4097, buf)) [some []] = .strResult buf
      ∧ js_host_call_json (fun _ _ _ => (4097, buf)) [some []]
          = .thrownInternal "host_call wrote too much data" := by
    intro buf hlen
    constructor
    · simp [js_bridge_call]
      omega
    · simp [js_host_call_json]
  obtain ⟨hb, hj⟩ := key (List.replicate 4096 0) (List.length_replicate 4096 0)
  refine ⟨⟨by decide, by decide, by decide⟩, hb, hj, ?_⟩
  rw [hb, hj]
  intro h
  exact JSBridgeResult.noConfusion h

theorem string_append_empty (a : String) : a ++ "" = a := by
  cases a with
  | mk l => exact congrArg String.mk (List.append_nil l)

/-- Counterexample for C4: for the exception `truncExc`, whose message already
fills the Diagnostic Record, the stack property is defined and stringifiable,
yet the record written by `eval_js` (status 22) contains no "\nStack: "
section — the silent truncation at capacity removed it entirely. -/
theorem C4_stack_section_lost :
    truncExc.stackUndefined = false
    ∧ truncExc.stackStr = some "s"
    ∧ (eval_js truncEngine (some []) ⟨"", ""⟩).1 = 22
    ∧ (eval_js truncEngine (some []) ⟨"", ""⟩).2.1.g_last_error = capture_exception truncExc
    ∧ hasStackSection (capture_exception truncExc) = false := by
  have h11 : ("Exception: " : String).data.length = 11 := by decide
  have htake : (List.replicate 1015 'a').take
      (ERROR_CAP - 1 - ("Exception: " : String).data.length) = List.replicate 1012 'a' := by
    rw [h11, List.take_replicate]
    norm_num [ERROR_CAP]
  have hbase_data : (capture_base truncExc).data
      = "Exception: ".data ++ List.replicate 1012 'a' := by
    show (set_error ("Exception: " ++ ⟨List.replicate 1015 'a'⟩)).data = _
    rw [set_error_exception_data]
    exact congrArg (fun l => "Exception: ".data ++ l) htake
  have hbase_len : (capture_base truncExc).length = 1023 := by
    show (capture_base truncExc).data.length = 1023
    rw [hbase_data, List.length_append, List.length_replicate, h11]
  have hexc : capture_exception truncExc = append_stack (capture_base truncExc) "s" := by
    simp only [capture_exception, show truncExc.stackUndefined = false from rfl,
      show truncExc.stackStr = some "s" from rfl, Bool.false_eq_true, if_false]
  have happend : append_stack (capture_base truncExc) "s" = capture_base truncExc := by
    rw [append_stack, hbase_len, show ERROR_CAP - 1 - 1023 = 0 by norm_num [ERROR_CAP],
      show truncN 0 ("\nStack: " ++ "s") = "" from rfl]
    exact string_append_empty _
  refine ⟨rfl, rfl, by simp [eval_js, truncEngine], by simp [eval_js, truncEngine], ?_⟩
  rw [hexc, happend, hasStackSection, hbase_data,
    show ("\nStack: " : String).data = '\n' :: ("Stack: " : String).data from by decide]
  apply containsSegB_eq_false
  intro hmem
  rcases List.mem_append.1 hmem with hm | hm
  · exact absurd hm (by decide)
  · exact absurd (List.eq_of_mem_replicate hm) (by decide)

/-- C4 (amended): on every evaluation raising a guest exception, `eval_js`
returns status 22 and the Diagnostic Record is `capture_exception` of it,
which always begins with "Exception: " followed by the message (or the
message property, or a fixed placeholder); when the exception carries a
defined stack property that stringifies successfully AND the captured message
leaves at least 8 bytes of remaining record capacity, the record additionally
contains a "\nStack: " section; the two extraction phases are independent —
a missing or unstringifiable stack leaves the captured message intact, and a
failed direct stringification still uses the message property. -/
theorem C4_exception_diagnostics (E : Engine) (c : List Nat) (s : BridgeState) (e : ExcInfo)
    (h1 : E.runtimeOk = true) (h2 : E.contextOk = true) (h3 : E.bridgeOk = true)
    (h4 : E.allocOk = true) (h5 : E.evalResult c = .exc e) :
    (eval_js E (some c) s).1 = 22
    ∧ (eval_js E (some c) s).2.1.g_last_error = capture_exception e
    ∧ prefixB "Exception: ".data (capture_exception e).data = true
    ∧ (e.stackUndefined = false → ∀ stk : String, e.stackStr = some stk →
        (capture_base e).length + 8 ≤ ERROR_CAP - 1 →
        hasStackSection (capture_exception e) = true)
    ∧ (e.stackUndefined = true → capture_exception e = capture_base e)
    ∧ (e.stackStr = none → capture_exception e = capture_base e)
    ∧ (∀ m : String, e.toCStr = some m →
        capture_base e = set_error ("Exception: " ++ m))
    ∧ (e.toCStr = none → ∀ m : String, e.msgProp = some m →
        capture_base e = set_error ("Exception: " ++ m)) := by
  refine ⟨by simp [eval_js, h1, h2, h3, h4, h5],
          by simp [eval_js, h1, h2, h3, h4, h5],
          capture_exception_prefixB e,
          fun hu stk hs hroom => capture_exception_hasSection e hu hs hroom,
          capture_exception_of_stack_undefined e,
          capture_exception_of_stack_unconvertible e, ?_, ?_⟩
  · intro m hm
    simp [capture_base, hm]
  · intro hn m hm
    simp [capture_base, hn, hm]

/-- Witness for C4 (amended): a concrete engine raising an exception with
message "boom" and stack "tr" — status 22, record begins with "Exception: "
and contains the stack section. -/
theorem C4_exception_diagnostics_witness :
    (eval_js ⟨true, true, true, "", true,
        fun _ => .exc ⟨some "boom", none, false, some "tr"⟩⟩ (some []) ⟨"", ""⟩).1 = 22
    ∧ prefixB "Exception: ".data
        (capture_exception ⟨some "boom", none, false, some "tr"⟩).data = true
    ∧ hasStackSection (capture_exception ⟨some "boom", none, false, some "tr"⟩) = true := by
  have H := C4_exception_diagnostics ⟨true, true, true, "", true,
      fun _ => .exc ⟨some "boom", none, false, some "tr"⟩⟩ [] ⟨"", ""⟩
      ⟨some "boom", none, false, some "tr"⟩ rfl rfl rfl rfl rfl
  exact ⟨H.1, H.2.2.1, H.2.2.2.1 rfl "tr" rfl (by decide)⟩

/-- C6: every write into the Diagnostic Record truncates at the 1023-byte
usable capacity (leaving room for the null terminator) — `set_error` output
never exceeds 1023 characters and hits exactly 1023 on overlong messages, the
stack-append never grows the record past 1023 characters, and a full
`capture_exception` always fits; no write can overrun the buffer or corrupt
adjacent state. -/
theorem C6_diagnostic_truncation :
    (∀ m : String, (set_error m).length ≤ ERROR_CAP - 1)
    ∧ (∀ m : String, ERROR_CAP - 1 ≤ m.length → (set_error m).length = ERROR_CAP - 1)
    ∧ (∀ b stk : String, b.length ≤ ERROR_CAP - 1 →
        (append_stack b stk).length ≤ ERROR_CAP - 1)
    ∧ (∀ e : ExcInfo, (capture_exception e).length ≤ ERROR_CAP - 1) := by
  refine ⟨set_error_length_le, ?_, append_stack_length_le, capture_exception_length_le⟩
  intro m h
  have h' : ERROR_CAP - 1 ≤ m.data.length := h
  show (m.data.take (ERROR_CAP - 1)).length = ERROR_CAP - 1
  rw [List.length_take]
  omega

/-- Witness for C6: a 2000-character message is truncated to exactly 1023
characters, and a stack-append to a short record stays within capacity. -/
theorem C6_diagnostic_truncation_witness :
    (set_error ⟨List.replicate 2000 'a'⟩).length = ERROR_CAP - 1
    ∧ (append_stack "" "x").length ≤ ERROR_CAP - 1 :=
  ⟨C6_diagnostic_truncation.2.1 ⟨List.replicate 2000 'a'⟩
    (by show ERROR_CAP - 1 ≤ (List.replicate 2000 'a').length
        rw [List.length_replicate]
        norm_num [ERROR_CAP]),
   C6_diagnostic_truncation.2.2.1 "" "x" (by decide)⟩

/-- C8: when the engine primitives succeed, `quickjs_selftest` returns status
0 and leaves a Diagnostic Record beginning with "Selftest: OK"; its failure
statuses lie in 100-102, a numeric range disjoint from the status set
{0, 20, ..., 26} that `eval_js` can return. -/
theorem C8_selftest :
    (∀ (E : SelftestEngine) (v : JSVal), E.runtimeOk = true → E.contextOk = true →
        E.evalResult = .val v →
        (quickjs_selftest E).1 = 0
        ∧ prefixB "Selftest: OK".data (quickjs_selftest E).2.data = true)
    ∧ (∀ E : SelftestEngine, (quickjs_selftest E).1 ≠ 0 →
        (quickjs_selftest E).1 ∈ ([100, 101, 102] : List Int))
    ∧ (∀ (E : Engine) (code : Option (List Nat)) (s : BridgeState),
        (eval_js E code s).1 ∈ ([0, 20, 21, 22, 23, 24, 25, 26] : List Int))
    ∧ (∀ x ∈ ([100, 101, 102] : List Int),
        x ∉ ([0, 20, 21, 22, 23, 24, 25, 26] : List Int)) := by
  refine ⟨?_, ?_, eval_js_status_mem, by decide⟩
  · intro E v h1 h2 h3
    refine ⟨by simp [quickjs_selftest, h1, h2, h3], ?_⟩
    have hrec : (quickjs_selftest E).2 = set_error "Selftest: OK (QuickJS is functional)" := by
      simp [quickjs_selftest, h1, h2, h3]
    rw [hrec]
    decide
  · intro E h0
    rcases hrt : E.runtimeOk with _ | _
    · simp [quickjs_selftest, hrt]
    rcases hctx : E.contextOk with _ | _
    · simp [quickjs_selftest, hrt, hctx]
    rcases hev : E.evalResult with e | v
    · simp [quickjs_selftest, hrt, hctx, hev]
    · exact absurd (by simp [quickjs_selftest, hrt, hctx, hev]) h0

/-- Witness for C8: the all-success self-test engine returns 0 with a record
beginning "Selftest: OK". -/
theorem C8_selftest_witness :
    (quickjs_selftest ⟨true, true, .val .undef⟩).1 = 0
    ∧ prefixB "Selftest: OK".data (quickjs_selftest ⟨true, true, .val .undef⟩).2.data = true :=
  C8_selftest.1 ⟨true, true, .val .undef⟩ .undef rfl rfl rfl
